import Mathlib

/-!
Verification of the outcome-resolution, rating-fallback, data-sufficiency and
feature-derivation logic of the GenAI-Football-Insights ml-service.

The definitions below are shallow embeddings of the Python source:
* `winProbs`, `rebalance`, `calculateConfidence`, `predictMatch` embed
  `TeamScorePredictor.predict_match` (app/models/team_score_predictor.py);
* `predictProbs` embeds the probability block of `TeamAgnosticPredictor.predict`
  (app/predictor_v2.py, lines 84-99), which inlines the same three-branch formula;
* `eloRatings`, `eloRating`, `eloToXg`, `eloWinProb`, `baseDrawProb`,
  `intlSelect` and `internationalPredict` embed
  `TeamAgnosticPredictor._predict_international_match`;
* `checkTeamHasData` embeds `TeamAgnosticPredictor._check_team_has_data`,
  with the SQL query modelled relationally over a list of match rows;
* `getTeamForm` embeds `TeamAgnosticFeatureEngineer._get_team_form` and
  `getFormStats` embeds `TeamAgnosticTrainer._get_form_stats`;
* `extractFeaturesForTeam` embeds
  `TeamAgnosticFeatureEngineer.extract_features_for_team`, with the per-field
  database reads abstracted behind a `StatSource` record (the spec's external
  StatAggregator collaborator);
* `generateInsightsV2` embeds `TeamAgnosticPredictor._generate_insights` and
  `generateInsightsEnhanced` embeds `EnhancedMatchPredictor._generate_insights`.

Python floats are modelled as exact rationals; the one genuinely transcendental
computation (the Elo logistic `10 ** (-elo_diff / 400)`) is modelled over ℝ.
-/

/-- The three outcome probabilities of `predict_match`: fields are named after
the Python locals `team_a_prob`, `draw_prob`, `team_b_prob`. -/
structure Probs where
  team_a_prob : ℚ
  draw_prob : ℚ
  team_b_prob : ℚ
deriving DecidableEq

/-- The three-branch win/draw probability computation from a goal difference,
`predict_match` lines 236-248.  The identical formula is inlined a second time
in `TeamAgnosticPredictor.predict` lines 87-99 (see `predictProbs`).

Source:
  if goal_diff > 1.0:
      team_a_prob = min(0.85, 0.5 + (goal_diff * 0.15))
      team_b_prob = max(0.05, 0.5 - (goal_diff * 0.20))
      draw_prob = 1.0 - team_a_prob - team_b_prob
  elif goal_diff < -1.0:  (mirrored with abs(goal_diff))
  else:
      team_a_prob = 0.5 + (goal_diff * 0.1)
      team_b_prob = 0.5 - (goal_diff * 0.1)
      draw_prob = max(0.2, 1.0 - team_a_prob - team_b_prob) -/
def winProbs (goal_diff : ℚ) : Probs :=
  if goal_diff > 1 then
    let team_a_prob := min (85/100) (1/2 + goal_diff * (15/100))
    let team_b_prob := max (5/100) (1/2 - goal_diff * (20/100))
    ⟨team_a_prob, 1 - team_a_prob - team_b_prob, team_b_prob⟩
  else if goal_diff < -1 then
    let team_b_prob := min (85/100) (1/2 + |goal_diff| * (15/100))
    let team_a_prob := max (5/100) (1/2 - |goal_diff| * (20/100))
    ⟨team_a_prob, 1 - team_a_prob - team_b_prob, team_b_prob⟩
  else
    let team_a_prob := 1/2 + goal_diff * (1/10)
    let team_b_prob := 1/2 - goal_diff * (1/10)
    ⟨team_a_prob, max (1/5) (1 - team_a_prob - team_b_prob), team_b_prob⟩

/-- The probability block of `TeamAgnosticPredictor.predict` (predictor_v2.py
lines 84-99): the same three-branch formula applied to the difference of the
two predicted goal counts; these are the probabilities returned to the caller
(`home_win_probability`, `draw_probability`, `away_win_probability`). -/
def predictProbs (team_a_goals team_b_goals : ℚ) : Probs :=
  winProbs (team_a_goals - team_b_goals)

/-- The near-tie rebalancing of `predict_match` lines 259-262, modelled with
the source's sequential assignment order: `team_a_prob` is overwritten first,
and the `team_b_prob` assignment then reads the already-updated `team_a_prob`:
  draw_prob = 1.0 - (team_a_prob + team_b_prob) * 0.15
  team_a_prob = (team_a_prob + team_b_prob) * 0.425
  team_b_prob = (team_a_prob + team_b_prob) * 0.425 -/
def rebalance (team_a_prob team_b_prob : ℚ) : Probs :=
  let draw_prob := 1 - (team_a_prob + team_b_prob) * (15/100)
  let team_a_prob2 := (team_a_prob + team_b_prob) * (425/1000)
  let team_b_prob2 := (team_a_prob2 + team_b_prob) * (425/1000)
  ⟨team_a_prob2, draw_prob, team_b_prob2⟩

/-- `TeamScorePredictor._calculate_confidence`:
  confidence = 0.5 + min(0.45, goal_diff * 0.15). -/
def calculateConfidence (winning_goals losing_goals : ℚ) : ℚ :=
  1/2 + min (45/100) ((winning_goals - losing_goals) * (15/100))

/-- The resolved outcome label: `"{team_a_name} Win"`, `"{team_b_name} Win"`
or `"Draw"` in the source. -/
inductive Outcome where
  | teamAWin
  | teamBWin
  | draw
deriving DecidableEq

/-- The outcome-relevant part of the dict returned by `predict_match`. -/
structure MatchPrediction where
  predicted_outcome : Outcome
  confidence_score : ℚ
  goal_difference : ℚ
deriving DecidableEq

/-- `TeamScorePredictor.predict_match` from the two raw goal predictions:
clamp both to ≥ 0, compute the three probabilities, then select the outcome:
  max_prob = max(team_a_prob, team_b_prob, draw_prob)
  if abs(team_a_prob - team_b_prob) < 0.02 and max_prob in (team_a_prob, team_b_prob):
      Draw, with the rebalanced draw probability feeding the confidence
  elif max_prob == team_a_prob: A win   elif max_prob == team_b_prob: B win
  else: Draw with confidence 0.5 + (0.5 - abs(goal_diff)). -/
def predictMatch (team_a_goals team_b_goals : ℚ) : MatchPrediction :=
  let gA := max 0 team_a_goals
  let gB := max 0 team_b_goals
  let goal_diff := gA - gB
  let p := winProbs goal_diff
  let max_prob := max p.team_a_prob (max p.team_b_prob p.draw_prob)
  if |p.team_a_prob - p.team_b_prob| < 2/100 ∧
      (max_prob = p.team_a_prob ∨ max_prob = p.team_b_prob) then
    let r := rebalance p.team_a_prob p.team_b_prob
    ⟨.draw, min (95/100) (6/10 + r.draw_prob * (3/10)), goal_diff⟩
  else if max_prob = p.team_a_prob then
    ⟨.teamAWin, calculateConfidence gA gB, goal_diff⟩
  else if max_prob = p.team_b_prob then
    ⟨.teamBWin, calculateConfidence gB gA, goal_diff⟩
  else
    ⟨.draw, 1/2 + (1/2 - |goal_diff|), goal_diff⟩

/-- In the close branch (|goal_diff| ≤ 1) the floor `max(0.2, ...)` always
fires, because the two win probabilities sum to exactly 1. -/
lemma winProbs_close (d : ℚ) (h : |d| ≤ 1) :
    winProbs d = ⟨1/2 + d * (1/10), 1/5, 1/2 - d * (1/10)⟩ := by
  rw [abs_le] at h
  have h1 : ¬ d > 1 := by linarith [h.2]
  have h2 : ¬ d < -1 := by linarith [h.1]
  simp only [winProbs, h1, h2, if_false]
  have : (1 : ℚ) - (1/2 + d * (1/10)) - (1/2 - d * (1/10)) = 0 := by ring
  rw [this]
  norm_num

/-- Bounds in the decisive branch for a positive goal difference:
team A's probability exceeds 13/20, team B's is below 3/10, and the draw
probability is below 3/10. -/
lemma winProbs_decisive_pos (d : ℚ) (h : 1 < d) :
    13/20 < (winProbs d).team_a_prob ∧ (winProbs d).team_b_prob < 3/10 ∧
      (winProbs d).draw_prob < 3/10 := by
  simp only [winProbs, if_pos h]
  have hA : (13:ℚ)/20 < min (85/100) (1/2 + d * (15/100)) := by
    apply lt_min <;> nlinarith
  have hB : max (5/100) (1/2 - d * (20/100)) < 3/10 := by
    apply max_lt <;> nlinarith
  refine ⟨hA, hB, ?_⟩
  have hB0 : (5:ℚ)/100 ≤ max (5/100) (1/2 - d * (20/100)) := le_max_left _ _
  nlinarith

/-- Bounds in the decisive branch for a negative goal difference. -/
lemma winProbs_decisive_neg (d : ℚ) (h : d < -1) :
    13/20 < (winProbs d).team_b_prob ∧ (winProbs d).team_a_prob < 3/10 ∧
      (winProbs d).draw_prob < 3/10 := by
  have h1 : ¬ d > 1 := by linarith
  have habs : |d| = -d := abs_of_neg (by linarith)
  simp only [winProbs, h1, if_false, if_pos h, habs]
  have hB : (13:ℚ)/20 < min (85/100) (1/2 + -d * (15/100)) := by
    apply lt_min <;> nlinarith
  have hA : max (5/100) (1/2 - -d * (20/100)) < 3/10 := by
    apply max_lt <;> nlinarith
  refine ⟨hB, hA, ?_⟩
  have hA0 : (5:ℚ)/100 ≤ max (5/100) (1/2 - -d * (20/100)) := le_max_left _ _
  nlinarith

/-- In every branch the draw probability is strictly below the larger of the
two win probabilities. -/
lemma winProbs_draw_lt_max (d : ℚ) :
    (winProbs d).draw_prob < max (winProbs d).team_a_prob (winProbs d).team_b_prob := by
  rcases lt_trichotomy 1 d with h | h | h
  · obtain ⟨hA, _, hd⟩ := winProbs_decisive_pos d h
    exact lt_of_lt_of_le (by linarith) (le_max_of_le_left hA.le)
  · have : winProbs d = ⟨1/2 + d * (1/10), 1/5, 1/2 - d * (1/10)⟩ :=
      winProbs_close d (by rw [← h]; norm_num)
    rw [this]
    simp only
    rcases le_or_lt 0 d with hd | hd
    · exact lt_of_lt_of_le (by nlinarith) (le_max_left _ _)
    · exact lt_of_lt_of_le (by nlinarith) (le_max_right _ _)
  · rcases lt_trichotomy d (-1) with h2 | h2 | h2
    · obtain ⟨hB, _, hd⟩ := winProbs_decisive_neg d h2
      exact lt_of_lt_of_le (by linarith) (le_max_of_le_right hB.le)
    · subst h2
      rw [winProbs_close (-1) (by norm_num)]
      simp only
      exact lt_of_lt_of_le (by norm_num) (le_max_right _ _)
    · have habs : |d| ≤ 1 := abs_le.mpr ⟨h2.le, h.le⟩
      rw [winProbs_close d habs]
      simp only
      rcases le_or_lt 0 d with hd | hd
      · exact lt_of_lt_of_le (by nlinarith) (le_max_left _ _)
      · exact lt_of_lt_of_le (by nlinarith) (le_max_right _ _)

/-- The larger of the two win probabilities is at least 1/2 in every branch. -/
lemma winProbs_max_ge_half (d : ℚ) :
    1/2 ≤ max (winProbs d).team_a_prob (winProbs d).team_b_prob := by
  rcases lt_trichotomy 1 d with h | h | h
  · obtain ⟨hA, _, _⟩ := winProbs_decisive_pos d h
    exact le_max_of_le_left (by linarith)
  · subst h
    rw [winProbs_close 1 (by norm_num)]
    simp only
    exact le_max_of_le_left (by norm_num)
  · rcases lt_trichotomy d (-1) with h2 | h2 | h2
    · obtain ⟨hB, _, _⟩ := winProbs_decisive_neg d h2
      exact le_max_of_le_right (by linarith)
    · subst h2
      rw [winProbs_close (-1) (by norm_num)]
      simp only
      exact le_max_of_le_right (by norm_num)
    · rw [winProbs_close d (abs_le.mpr ⟨h2.le, h.le⟩)]
      simp only
      rcases le_or_lt 0 d with hd | hd
      · exact le_max_of_le_left (by nlinarith)
      · exact le_max_of_le_right (by nlinarith)

/-- Normal form for `predictMatch` on clamped inputs: the draw-as-argmax
branch never fires, so the result is determined by the near-tie test and the
comparison of the two win probabilities. -/
lemma predictMatch_normal (gA gB : ℚ) (hA : 0 ≤ gA) (hB : 0 ≤ gB) :
    predictMatch gA gB =
      (if |(winProbs (gA - gB)).team_a_prob - (winProbs (gA - gB)).team_b_prob| < 2/100 then
        ⟨.draw,
          min (95/100) (6/10 +
            (rebalance (winProbs (gA - gB)).team_a_prob
              (winProbs (gA - gB)).team_b_prob).draw_prob * (3/10)), gA - gB⟩
      else if (winProbs (gA - gB)).team_b_prob ≤ (winProbs (gA - gB)).team_a_prob then
        ⟨.teamAWin, calculateConfidence gA gB, gA - gB⟩
      else
        ⟨.teamBWin, calculateConfidence gB gA, gA - gB⟩ : MatchPrediction) := by
  unfold predictMatch
  rw [max_eq_right hA, max_eq_right hB]
  have hmax : max (winProbs (gA - gB)).team_a_prob
      (max (winProbs (gA - gB)).team_b_prob (winProbs (gA - gB)).draw_prob) =
      max (winProbs (gA - gB)).team_a_prob (winProbs (gA - gB)).team_b_prob := by
    rw [← max_assoc]
    exact max_eq_left (winProbs_draw_lt_max _).le
  simp only [hmax]
  by_cases h1 : |(winProbs (gA - gB)).team_a_prob - (winProbs (gA - gB)).team_b_prob| < 2/100
  · rw [if_pos ⟨h1, max_choice _ _⟩, if_pos h1]
  · have hguard : ¬ (|(winProbs (gA - gB)).team_a_prob - (winProbs (gA - gB)).team_b_prob| < 2/100 ∧
        (max (winProbs (gA - gB)).team_a_prob (winProbs (gA - gB)).team_b_prob =
            (winProbs (gA - gB)).team_a_prob ∨
          max (winProbs (gA - gB)).team_a_prob (winProbs (gA - gB)).team_b_prob =
            (winProbs (gA - gB)).team_b_prob)) := fun hc => h1 hc.1
    rw [if_neg hguard, if_neg h1]
    by_cases h2 : (winProbs (gA - gB)).team_b_prob ≤ (winProbs (gA - gB)).team_a_prob
    · rw [if_pos (max_eq_left h2), if_pos h2]
    · push_neg at h2
      have hne : max (winProbs (gA - gB)).team_a_prob (winProbs (gA - gB)).team_b_prob ≠
          (winProbs (gA - gB)).team_a_prob := by
        rw [max_eq_right h2.le]
        exact fun hc => absurd hc (ne_of_gt h2)
      rw [if_neg hne, if_pos (max_eq_right h2.le), if_neg (not_le.mpr h2)]

/-- C7: whenever the two win probabilities differ by less than 0.02 the
resolved outcome of `predict_match` is Draw regardless of which was larger;
in particular exactly equal goal estimates always resolve to Draw. -/
theorem near_tie_forces_draw :
    (∀ gA gB : ℚ, 0 ≤ gA → 0 ≤ gB →
      |(winProbs (gA - gB)).team_a_prob - (winProbs (gA - gB)).team_b_prob| < 2/100 →
      (predictMatch gA gB).predicted_outcome = Outcome.draw) ∧
    (∀ g : ℚ, 0 ≤ g → (predictMatch g g).predicted_outcome = Outcome.draw) := by
  have main : ∀ gA gB : ℚ, 0 ≤ gA → 0 ≤ gB →
      |(winProbs (gA - gB)).team_a_prob - (winProbs (gA - gB)).team_b_prob| < 2/100 →
      (predictMatch gA gB).predicted_outcome = Outcome.draw := by
    intro gA gB hA hB h
    rw [predictMatch_normal gA gB hA hB, if_pos h]
  refine ⟨main, fun g hg => main g g hg hg ?_⟩
  rw [show g - g = 0 by ring, winProbs_close 0 (by norm_num)]
  norm_num

/-- Witness for C7 at the spec's concrete exact tie goalsA = goalsB = 2.0. -/
theorem near_tie_forces_draw_witness :
    (0:ℚ) ≤ 2 ∧ (predictMatch 2 2).predicted_outcome = Outcome.draw :=
  ⟨by norm_num, near_tie_forces_draw.2 2 (by norm_num)⟩

/-- C10: before the near-tie check the draw probability is never the strict
maximum (at most 0.3 in the decisive branches, exactly 0.2 in the close
branch, while the larger win probability is at least 0.5), so the natural
Draw-as-argmax branch of `predict_match` is unreachable and a Draw outcome
arises exactly from the near-tie override. -/
theorem draw_never_argmax (gA gB : ℚ) (hA : 0 ≤ gA) (hB : 0 ≤ gB) :
    (1 < |gA - gB| → (winProbs (gA - gB)).draw_prob ≤ 3/10) ∧
    (|gA - gB| ≤ 1 → (winProbs (gA - gB)).draw_prob = 1/5) ∧
    1/2 ≤ max (winProbs (gA - gB)).team_a_prob (winProbs (gA - gB)).team_b_prob ∧
    (winProbs (gA - gB)).draw_prob <
      max (winProbs (gA - gB)).team_a_prob (winProbs (gA - gB)).team_b_prob ∧
    ((predictMatch gA gB).predicted_outcome = Outcome.draw ↔
      |(winProbs (gA - gB)).team_a_prob - (winProbs (gA - gB)).team_b_prob| < 2/100) := by
  refine ⟨?_, ?_, winProbs_max_ge_half _, winProbs_draw_lt_max _, ?_⟩
  · intro h
    rw [lt_abs] at h
    rcases h with h | h
    · exact ((winProbs_decisive_pos _ h).2.2).le
    · exact ((winProbs_decisive_neg _ (by linarith)).2.2).le
  · intro h
    rw [winProbs_close _ h]
  · rw [predictMatch_normal gA gB hA hB]
    by_cases h : |(winProbs (gA - gB)).team_a_prob - (winProbs (gA - gB)).team_b_prob| < 2/100
    · rw [if_pos h]
      simp [h]
    · rw [if_neg h]
      by_cases h2 : (winProbs (gA - gB)).team_b_prob ≤ (winProbs (gA - gB)).team_a_prob
      · rw [if_pos h2]
        simp [h]
      · rw [if_neg h2]
        simp [h]

/-- Witness for C10 at the concrete decisive input goalsA = 4, goalsB = 1. -/
theorem draw_never_argmax_witness :
    (0:ℚ) ≤ 4 ∧ 1 < |(4:ℚ) - 1| ∧ (winProbs ((4:ℚ) - 1)).draw_prob ≤ 3/10 :=
  ⟨by norm_num, by norm_num,
    (draw_never_argmax 4 1 (by norm_num) (by norm_num)).1 (by norm_num)⟩

/-- C1 counterexample: at the exact tie goalsA = goalsB = 2 the probabilities
returned by `TeamAgnosticPredictor.predict` sum to exactly 1.2, outside the
claimed 1 ± 0.001 tolerance (and outside [0.98, 1.02]), and are returned
without any renormalization. -/
theorem probs_sum_counterexample :
    (predictProbs 2 2).team_a_prob + (predictProbs 2 2).draw_prob +
      (predictProbs 2 2).team_b_prob = 6/5 ∧ ¬ |(6/5 : ℚ) - 1| ≤ 1/1000 := by
  constructor
  · rw [predictProbs, show (2:ℚ) - 2 = 0 by ring, winProbs_close 0 (by norm_num)]
    norm_num
  · rw [show |(6/5:ℚ) - 1| = 1/5 by rw [abs_of_nonneg] <;> norm_num]
    norm_num

/-- C1 amended: the probabilities computed by `TeamAgnosticPredictor.predict`
sum to exactly 1 when |goal_diff| > 1, and to exactly 1.2 when |goal_diff| ≤ 1
(the draw probability is floored at 0.2 while the two win probabilities sum to
exactly 1); no renormalization is ever applied. -/
theorem probs_sum_amended (gA gB : ℚ) (hA : 0 ≤ gA) (hB : 0 ≤ gB) :
    (1 < |gA - gB| →
      (predictProbs gA gB).team_a_prob + (predictProbs gA gB).draw_prob +
        (predictProbs gA gB).team_b_prob = 1) ∧
    (|gA - gB| ≤ 1 →
      (predictProbs gA gB).team_a_prob + (predictProbs gA gB).draw_prob +
        (predictProbs gA gB).team_b_prob = 6/5) := by
  constructor
  · intro h
    rw [lt_abs] at h
    rcases h with h | h
    · rw [predictProbs, winProbs]
      rw [if_pos h]
      ring
    · have h' : gA - gB < -1 := by linarith
      rw [predictProbs, winProbs]
      rw [if_neg (by linarith), if_pos h']
      ring
  · intro h
    rw [predictProbs, winProbs_close _ h]
    simp only
    ring

/-- Witness for C1 (amended) at the concrete tie goalsA = goalsB = 2. -/
theorem probs_sum_amended_witness :
    (0:ℚ) ≤ 2 ∧ |(2:ℚ) - 2| ≤ 1 ∧
      (predictProbs 2 2).team_a_prob + (predictProbs 2 2).draw_prob +
        (predictProbs 2 2).team_b_prob = 6/5 :=
  ⟨by norm_num, by norm_num,
    (probs_sum_amended 2 2 (by norm_num) (by norm_num)).2 (by norm_num)⟩

/-- C2: evaluating the near-tie rebalancing at team_a_prob = team_b_prob = 0.5
(the probabilities produced by an exact goal tie).  Because the source
overwrites `team_a_prob` before computing `team_b_prob`, the two rebalanced
win probabilities are NOT equal: team A gets 0.425 but team B gets
(0.425 + 0.5) × 0.425 = 0.393125, while the draw probability is 0.85. -/
theorem rebalance_sequential_bug :
    rebalance (1/2) (1/2) = ⟨17/40, 17/20, 629/1600⟩ ∧
      (rebalance (1/2) (1/2)).team_a_prob ≠ (rebalance (1/2) (1/2)).team_b_prob := by
  constructor
  · rw [rebalance]
    norm_num
  · rw [rebalance]
    norm_num

/-- The static Elo-style rating table of
`TeamAgnosticPredictor._predict_international_match` (1400-2100 scale). -/
def eloRatings : List (String × ℚ) :=
  [("Brazil", 2050), ("Argentina", 2040), ("France", 2030), ("England", 2020),
   ("Spain", 2010), ("Germany", 1990), ("Portugal", 1980), ("Netherlands", 1970),
   ("Belgium", 1960), ("Italy", 1950), ("Croatia", 1900), ("Uruguay", 1890),
   ("Colombia", 1880), ("Mexico", 1870), ("Switzerland", 1860), ("USA", 1850),
   ("Senegal", 1840), ("Japan", 1830), ("Morocco", 1820), ("Korea Republic", 1810),
   ("Denmark", 1800), ("Austria", 1790), ("Ecuador", 1780), ("Tunisia", 1770),
   ("Poland", 1760), ("Australia", 1730), ("Canada", 1720), ("IR Iran", 1710),
   ("Saudi Arabia", 1700), ("Egypt", 1690), ("Norway", 1680), ("Scotland", 1670),
   ("Ghana", 1660), ("Côte d'Ivoire", 1650), ("Algeria", 1640),
   ("South Africa", 1630), ("Qatar", 1620), ("Panama", 1610), ("Paraguay", 1600),
   ("Uzbekistan", 1590), ("Jordan", 1560), ("Cabo Verde", 1550),
   ("New Zealand", 1540), ("Curaçao", 1530), ("Haiti", 1520)]

/-- `elo_ratings.get(team_name, 1700)`: unknown names resolve to the neutral
rating 1700. -/
def eloRating (name : String) : ℚ :=
  (eloRatings.lookup name).getD 1700

/-- The rating-to-expected-goals map of `_predict_international_match`
line 176-177:  `0.8 + ((rating - 1400) / 300)`, applied to the home-adjusted
rating for the home side and to the raw rating for the away side.  The code
comment documents the anchors `(1400=0.8, 1700=1.5, 2000=2.2 goals)`. -/
def eloToXg (rating : ℚ) : ℚ :=
  8/10 + (rating - 1400) / 300

/-- The logistic win probability `1 / (1 + 10 ** (-elo_diff / 400))`. -/
noncomputable def eloWinProb (elo_diff : ℚ) : ℝ :=
  1 / (1 + (10:ℝ) ^ (-((elo_diff : ℝ)) / 400))

/-- `base_draw_prob = 0.25 * max(0, 1 - abs(elo_diff) / 200) + 0.15`. -/
def baseDrawProb (elo_diff : ℚ) : ℚ :=
  25/100 * max 0 (1 - |elo_diff| / 200) + 15/100

/-- The outcome-relevant part of the dict returned by
`_predict_international_match`. -/
structure IntlPrediction where
  predicted_outcome : Outcome
  confidence_score : ℝ
  team_a_predicted_goals : ℚ
  team_b_predicted_goals : ℚ

open Classical in
/-- The argmax selection of `_predict_international_match`:
  if max_prob == home_prob: home win, confidence 0.5 + min(0.4, home_prob - 0.5)
  elif max_prob == away_prob: away win, confidence 0.5 + min(0.4, away_prob - 0.5)
  else: Draw, confidence 0.5 + min(0.3, draw_prob - 0.25). -/
noncomputable def intlSelect (home_prob away_prob draw_prob : ℝ) : Outcome × ℝ :=
  let max_prob := max home_prob (max away_prob draw_prob)
  if max_prob = home_prob then (.teamAWin, 1/2 + min (4/10) (home_prob - 1/2))
  else if max_prob = away_prob then (.teamBWin, 1/2 + min (4/10) (away_prob - 1/2))
  else (.draw, 1/2 + min (3/10) (draw_prob - 1/4))

/-- `TeamAgnosticPredictor._predict_international_match`: look both names up
in the rating table (default 1700), add the +50 home advantage, compute the
logistic win probability, the xG estimates and the raw draw probability,
normalize the three probabilities by their sum, and pick the argmax via
`intlSelect`. -/
noncomputable def internationalPredict (home_team_name away_team_name : String) :
    IntlPrediction :=
  let home_elo := eloRating home_team_name
  let away_elo := eloRating away_team_name
  let home_advantage : ℚ := 50
  let adjusted_home_elo := home_elo + home_advantage
  let elo_diff : ℚ := adjusted_home_elo - away_elo
  let home_win_prob : ℝ := eloWinProb elo_diff
  let away_win_prob : ℝ := 1 - home_win_prob
  let home_xg := eloToXg adjusted_home_elo
  let away_xg := eloToXg away_elo
  let base_draw_prob : ℚ := baseDrawProb elo_diff
  let total : ℝ := home_win_prob + away_win_prob + (base_draw_prob : ℝ)
  let home_prob := home_win_prob / total
  let away_prob := away_win_prob / total
  let draw_prob := (base_draw_prob : ℝ) / total
  let sel := intlSelect home_prob away_prob draw_prob
  ⟨sel.1, sel.2, home_xg, away_xg⟩

/-- When the home probability is the strict maximum the selector returns the
home win with its confidence formula. -/
lemma intlSelect_home (hp ap dp : ℝ) (h1 : ap < hp) (h2 : dp < hp) :
    intlSelect hp ap dp = (Outcome.teamAWin, 1/2 + min (4/10) (hp - 1/2)) := by
  have hm : max hp (max ap dp) = hp := max_eq_left (max_le h1.le h2.le)
  simp only [intlSelect, hm, if_pos]

/-- `10 ^ (1/8) < 2`, because `10 < 2 ^ 8`. -/
lemma ten_rpow_eighth_lt_two : (10:ℝ) ^ ((1:ℝ)/8) < 2 := by
  by_contra hc
  push_neg at hc
  have h8 : (2:ℝ) ^ (8:ℕ) ≤ ((10:ℝ) ^ ((1:ℝ)/8)) ^ (8:ℕ) :=
    pow_le_pow_left (by norm_num) hc 8
  rw [← Real.rpow_natCast ((10:ℝ) ^ ((1:ℝ)/8)) 8, ← Real.rpow_mul (by norm_num)] at h8
  norm_num at h8

/-- The logistic factor `t = 10 ^ (-50/400)` lies strictly between 1/2 and 1. -/
lemma ten_rpow_bounds :
    1/2 < (10:ℝ) ^ (-(50:ℝ) / 400) ∧ (10:ℝ) ^ (-(50:ℝ) / 400) < 1 := by
  have hexp : -(50:ℝ) / 400 = -(1/8) := by norm_num
  rw [hexp]
  constructor
  · rw [Real.rpow_neg (by norm_num)]
    have hu : (0:ℝ) < (10:ℝ) ^ ((1:ℝ)/8) := Real.rpow_pos_of_pos (by norm_num) _
    have := ten_rpow_eighth_lt_two
    have hinv : (2:ℝ)⁻¹ < ((10:ℝ) ^ ((1:ℝ)/8))⁻¹ := by
      apply inv_lt_inv_of_lt hu this
    calc (1:ℝ)/2 = (2:ℝ)⁻¹ := by norm_num
    _ < ((10:ℝ) ^ ((1:ℝ)/8))⁻¹ := hinv
  · exact Real.rpow_lt_one_of_one_lt_of_neg (by norm_num) (by norm_num)

/-- Bounds on the logistic home win probability at elo_diff = 50. -/
lemma eloWinProb_50 : 1/2 < eloWinProb 50 ∧ eloWinProb 50 < 2/3 := by
  obtain ⟨ht1, ht2⟩ := ten_rpow_bounds
  have hcast : -(((50:ℚ):ℝ)) / 400 = -(50:ℝ) / 400 := by norm_num
  unfold eloWinProb
  rw [hcast]
  set t := (10:ℝ) ^ (-(50:ℝ) / 400) with hts
  have hpos : (0:ℝ) < 1 + t := by linarith
  constructor
  · rw [lt_div_iff hpos]
    linarith
  · rw [div_lt_iff hpos]
    linarith

/-- Core lemma for the rating-fallback scenario: with both names absent from
the table both ratings default to 1700, and the +50 home bonus makes the
normalized home win probability the strict maximum, so the predicted outcome
is the home side's win with confidence equal to the normalized home win
probability, which is below 1/2. -/
lemma internationalPredict_unknown (h a : String)
    (hh : eloRatings.lookup h = none) (ha : eloRatings.lookup a = none) :
    eloRating h = 1700 ∧ eloRating a = 1700 ∧
      (internationalPredict h a).predicted_outcome = Outcome.teamAWin ∧
      (internationalPredict h a).confidence_score < 1/2 := by
  have hH : eloRating h = 1700 := by rw [eloRating, hh]; rfl
  have hA : eloRating a = 1700 := by rw [eloRating, ha]; rfl
  refine ⟨hH, hA, ?_⟩
  obtain ⟨hw1, hw2⟩ := eloWinProb_50
  have hdiff : eloRating h + 50 - eloRating a = 50 := by rw [hH, hA]; norm_num
  have hbd : baseDrawProb 50 = 27/80 := by
    rw [baseDrawProb]
    rw [show |(50:ℚ)| = 50 from abs_of_nonneg (by norm_num)]
    rw [max_eq_right (by norm_num : (0:ℚ) ≤ 1 - 50/200)]
    norm_num
  simp only [internationalPredict, hH, hA]
  rw [show (1700:ℚ) + 50 - 1700 = 50 by norm_num, hbd]
  set hwp := eloWinProb 50 with hwps
  rw [show hwp + (1 - hwp) + ((27/80:ℚ):ℝ) = 107/80 by push_cast; ring]
  have htotpos : (0:ℝ) < 107/80 := by norm_num
  have hhome_lt : hwp / (107/80 : ℝ) < 1/2 := by
    rw [div_lt_iff htotpos]
    linarith
  have haway_lt : (1 - hwp) / (107/80 : ℝ) < hwp / (107/80 : ℝ) :=
    (div_lt_div_right htotpos).mpr (by linarith)
  have hdraw_lt : ((27/80:ℚ):ℝ) / (107/80 : ℝ) < hwp / (107/80 : ℝ) := by
    refine (div_lt_div_right htotpos).mpr ?_
    push_cast
    linarith
  rw [intlSelect_home _ _ _ haway_lt hdraw_lt]
  refine ⟨rfl, ?_⟩
  rw [min_eq_right (by linarith : hwp / (107/80 : ℝ) - 1/2 ≤ 4/10)]
  linarith

/-- C4: the code's rating-to-goals formula does not pass through the anchor
points documented in its own comment `(1400=0.8, 1700=1.5, 2000=2.2 goals)`:
it yields 0.8 at 1400 but 1.8 at 1700 and 2.8 at 2000. -/
theorem eloToXg_anchor_mismatch :
    eloToXg 1400 = 8/10 ∧ eloToXg 1700 = 9/5 ∧ eloToXg 2000 = 14/5 ∧
      ((9:ℚ)/5 ≠ 3/2) ∧ ((14:ℚ)/5 ≠ 11/5) := by
  norm_num [eloToXg]

/-- C3 counterexample: two names absent from the rating table both default to
the neutral rating 1700, yet the predicted outcome is the HOME side's win,
not the claimed "Draw", because of the +50 home-advantage bonus. -/
theorem unknown_names_counterexample :
    eloRating "Atlantis" = 1700 ∧ eloRating "Avalon" = 1700 ∧
      (internationalPredict "Atlantis" "Avalon").predicted_outcome = Outcome.teamAWin ∧
      (internationalPredict "Atlantis" "Avalon").predicted_outcome ≠ Outcome.draw := by
  have h := internationalPredict_unknown "Atlantis" "Avalon" rfl rfl
  refine ⟨h.1, h.2.1, h.2.2.1, ?_⟩
  rw [h.2.2.1]
  exact fun hc => Outcome.noConfusion hc

/-- C3 amended: when both competitor names are absent from the rating table,
both resolve to the same neutral rating constant 1700, and the predicted
outcome is the home team's win (forced by the +50 home bonus) with a
confidence score below 0.5. -/
theorem unknown_names_amended (h a : String)
    (hh : eloRatings.lookup h = none) (ha : eloRatings.lookup a = none) :
    eloRating h = 1700 ∧ eloRating a = 1700 ∧
      (internationalPredict h a).predicted_outcome = Outcome.teamAWin ∧
      (internationalPredict h a).confidence_score < 1/2 :=
  internationalPredict_unknown h a hh ha

/-- Witness for C3 (amended) at the concrete unknown names. -/
theorem unknown_names_amended_witness :
    eloRatings.lookup "Borduria" = none ∧
      (internationalPredict "Borduria" "Syldavia").predicted_outcome = Outcome.teamAWin :=
  ⟨rfl, (unknown_names_amended "Borduria" "Syldavia" rfl rfl).2.2.1⟩

/-- The `winner` column of the `matches` table: 'HOME_TEAM', 'AWAY_TEAM' or
'DRAW'. -/
inductive MatchWinner where
  | homeTeam
  | awayTeam
  | drawGame
deriving DecidableEq

/-- A row of the `matches` table (joined with `teams` so that team ids are the
external ids used by the queries).  `finished` models `status = 'FINISHED'`;
`utc_date` is a day index. -/
structure MatchRow where
  home_team_id : ℕ
  away_team_id : ℕ
  finished : Bool
  utc_date : ℕ
  winner : MatchWinner
deriving DecidableEq

/-- Whether the given team played in the match:
`m.home_team_id = t.id OR m.away_team_id = t.id`. -/
def playsIn (team_id : ℕ) (m : MatchRow) : Bool :=
  m.home_team_id == team_id || m.away_team_id == team_id

/-- `TeamAgnosticPredictor._check_team_has_data`: counts ALL finished matches
of the team — the SQL has no date condition, so the `match_date` argument is
received but never used — and returns `count > 5`. -/
def checkTeamHasData (db : List MatchRow) (team_id : ℕ) (match_date : ℕ) : Bool :=
  5 < (db.filter (fun m => playsIn team_id m && m.finished)).length

/-- Modelled from the spec (for comparison with `checkTeamHasData`):
`hasHistory(team, asOfDate)` is true iff the number of finished matches for
the team strictly before `asOfDate` exceeds 5. -/
def hasHistorySpec (db : List MatchRow) (team_id : ℕ) (as_of_date : ℕ) : Bool :=
  5 < (db.filter (fun m =>
    playsIn team_id m && m.finished && decide (m.utc_date < as_of_date))).length

/-- Six finished matches of team 1, all dated on/after the as-of date 0. -/
def lateMatchesDb : List MatchRow :=
  [⟨1, 2, true, 1, .homeTeam⟩, ⟨1, 2, true, 2, .homeTeam⟩,
   ⟨2, 1, true, 3, .awayTeam⟩, ⟨1, 2, true, 4, .drawGame⟩,
   ⟨2, 1, true, 5, .homeTeam⟩, ⟨1, 2, true, 6, .awayTeam⟩]

/-- C5 counterexample: a team whose 6 finished matches all lie on/after the
as-of date.  The code reports sufficient history (it ignores the date), while
the claimed predicate (strictly-before count > 5) is false. -/
theorem hasHistory_date_counterexample :
    checkTeamHasData lateMatchesDb 1 0 = true ∧ hasHistorySpec lateMatchesDb 1 0 = false := by
  constructor <;> rfl

/-- C5 amended: `_check_team_has_data` is independent of the as-of date and
returns true iff the team's TOTAL number of finished matches (at any date)
exceeds 5. -/
theorem hasHistory_amended (db : List MatchRow) (team_id : ℕ) (d d' : ℕ) :
    checkTeamHasData db team_id d = checkTeamHasData db team_id d' ∧
      (checkTeamHasData db team_id d = true ↔
        5 < (db.filter (fun m => playsIn team_id m && m.finished)).length) := by
  refine ⟨rfl, ?_⟩
  rw [checkTeamHasData]
  exact decide_eq_true_iff

/-- Points awarded to a team for a match, as in the form SQL:
3 for a win from the team's perspective, 1 for a draw, 0 otherwise. -/
def pointsFor (team_id : ℕ) (m : MatchRow) : ℕ :=
  if (m.home_team_id = team_id ∧ m.winner = MatchWinner.homeTeam) ∨
      (m.away_team_id = team_id ∧ m.winner = MatchWinner.awayTeam) then 3
  else if m.winner = MatchWinner.drawGame then 1
  else 0

/-- The team's finished matches strictly before the date (the WHERE clause
shared by both form queries). -/
def teamMatchesBefore (db : List MatchRow) (team_id : ℕ) (before_date : ℕ) :
    List MatchRow :=
  db.filter (fun m => playsIn team_id m && m.finished && decide (m.utc_date < before_date))

/-- Failure raised by the database driver while executing a query. -/
inductive SqlError where
  | groupingError
deriving DecidableEq

/-- Either form query of `_get_team_form`:
`SELECT SUM(points)::float / (COUNT(*) * 3)::float AS form_score FROM ...
WHERE ... ORDER BY m.utc_date DESC LIMIT 5` (resp. `LIMIT 10`).
The query is an aggregate query with no GROUP BY whose ORDER BY references
the ungrouped column `m.utc_date`; the program's backend is PostgreSQL (via
psycopg2), which rejects this at parse analysis
("column m.utc_date must appear in the GROUP BY clause or be used in an
aggregate function"), so `pd.read_sql` raises for every database state and
no form score is ever produced. -/
def formScoreAll (db : List MatchRow) (team_id : ℕ) (before_date : ℕ) :
    Except SqlError (Option ℚ) :=
  Except.error SqlError.groupingError

/-- Python truthiness applied to a fetched form score:
`form_5 = df_5.iloc[0]['form_score'] if ... and df_5.iloc[0]['form_score'] else 0.5`
— a NULL (`none`) OR a zero score both fall back to 0.5. -/
def pyTruthyOr (default : ℚ) (v : Option ℚ) : ℚ :=
  match v with
  | none => default
  | some s => if s = 0 then default else s

/-- `TeamAgnosticFeatureEngineer._get_team_form`, which would return
(form_last_5, form_last_10, momentum) from the two query results via the
truthiness fallback.  The function has no exception handler (nor does its
caller `extract_features_for_team`), so the `GroupingError` raised by the
first query propagates and the form triple is never computed. -/
def getTeamForm (db : List MatchRow) (team_id : ℕ) (before_date : ℕ) :
    Except SqlError (ℚ × ℚ × ℚ) := do
  let form_5_score ← formScoreAll db team_id before_date
  let form_10_score ← formScoreAll db team_id before_date
  let form_5 := pyTruthyOr (1/2) form_5_score
  let form_10 := pyTruthyOr (1/2) form_10_score
  return (form_5, form_10, form_5 - form_10)

/-- Insertion of a match into a list kept in descending date order. -/
def insertByDateDesc (m : MatchRow) : List MatchRow → List MatchRow
  | [] => [m]
  | x :: xs => if x.utc_date ≤ m.utc_date then m :: x :: xs else x :: insertByDateDesc m xs

/-- `ORDER BY m.utc_date DESC` (insertion sort; ties keep the later list row
first, which the SQL leaves unspecified). -/
def sortByDateDesc (l : List MatchRow) : List MatchRow :=
  l.foldr insertByDateDesc []

/-- `TeamAgnosticTrainer._get_form_stats`: the CTE takes the 10 most recent
finished matches before the date with row numbers in descending date order;
the outer query computes `AVG(points over match_num ≤ 5) / 3.0` and
`AVG(points) / 3.0`, and the Python side applies the same truthiness fallback
to 0.5 for NULL or zero scores.  Returns (form_5, form_10, momentum). -/
def getFormStats (db : List MatchRow) (team_id : ℕ) (before_date : ℕ) : ℚ × ℚ × ℚ :=
  let pts := ((sortByDateDesc (teamMatchesBefore db team_id before_date)).take 10).map
    (pointsFor team_id)
  let avg5 : Option ℚ :=
    if (pts.take 5).isEmpty then none
    else some ((((pts.take 5).sum : ℚ) / (pts.take 5).length) / 3)
  let avg10 : Option ℚ :=
    if pts.isEmpty then none
    else some (((pts.sum : ℚ) / pts.length) / 3)
  let form_5 := pyTruthyOr (1/2) avg5
  let form_10 := pyTruthyOr (1/2) avg10
  (form_5, form_10, form_5 - form_10)

/-- Team 1's history: five wins on days 10..6 followed (going further back)
by one loss on day 1 — six finished matches in all. -/
def fiveWinsOneLossDb : List MatchRow :=
  [⟨1, 2, true, 10, .homeTeam⟩, ⟨1, 2, true, 9, .homeTeam⟩,
   ⟨2, 1, true, 8, .awayTeam⟩, ⟨1, 2, true, 7, .homeTeam⟩,
   ⟨2, 1, true, 6, .awayTeam⟩, ⟨1, 2, true, 1, .awayTeam⟩]

/-- C6: the feature-path form function `_get_team_form` never computes the
claimed windowed form features — its aggregate query orders by the ungrouped
column `m.utc_date`, which PostgreSQL rejects, so the function raises a
GroupingError for every input, including a team whose 5 most recent matches
are all wins with one older loss.  The trainer's windowed CTE
`_get_form_stats` is valid SQL and does return the claimed value
form_5 = 15/15 = 1 on that history (with form_10 = 15/18 = 5/6 over its 6
matches) — but even it returns 0.5 instead of the claimed 0 for an all-loss
window, because Python truthiness treats the 0.0 score as missing. -/
theorem teamForm_window_bug :
    (∀ db : List MatchRow, ∀ team_id before_date : ℕ,
      getTeamForm db team_id before_date = Except.error SqlError.groupingError) ∧
      getTeamForm fiveWinsOneLossDb 1 20 = Except.error SqlError.groupingError ∧
      getFormStats fiveWinsOneLossDb 1 20 = (1, 5/6, 1/6) ∧
      getFormStats [⟨1, 2, true, 3, .awayTeam⟩] 1 20 = (1/2, 1/2, 0) := by
  refine ⟨fun db team_id before_date => rfl, rfl, ?_, ?_⟩
  · have hpts : ((sortByDateDesc (teamMatchesBefore fiveWinsOneLossDb 1 20)).take 10).map
        (pointsFor 1) = [3, 3, 3, 3, 3, 0] := by decide
    simp only [getFormStats, hpts]
    have ht5 : ([3, 3, 3, 3, 3, 0] : List ℕ).take 5 = [3, 3, 3, 3, 3] := by decide
    rw [ht5]
    rw [if_neg (by decide : ¬ ([3, 3, 3, 3, 3] : List ℕ).isEmpty = true)]
    rw [if_neg (by decide : ¬ ([3, 3, 3, 3, 3, 0] : List ℕ).isEmpty = true)]
    rw [show ([3, 3, 3, 3, 3] : List ℕ).sum = 15 by decide,
        show ([3, 3, 3, 3, 3] : List ℕ).length = 5 by decide,
        show ([3, 3, 3, 3, 3, 0] : List ℕ).sum = 15 by decide,
        show ([3, 3, 3, 3, 3, 0] : List ℕ).length = 6 by decide]
    simp only [pyTruthyOr]
    rw [if_neg (by norm_num : ¬ ((15:ℕ):ℚ) / ((5:ℕ):ℚ) / 3 = 0)]
    rw [if_neg (by norm_num : ¬ ((15:ℕ):ℚ) / ((6:ℕ):ℚ) / 3 = 0)]
    norm_num
  · have hpts1 : ((sortByDateDesc (teamMatchesBefore [⟨1, 2, true, 3, .awayTeam⟩] 1 20)).take
        10).map (pointsFor 1) = [0] := by decide
    simp only [getFormStats, hpts1]
    rw [show ([0] : List ℕ).take 5 = [0] by decide]
    rw [if_neg (by decide : ¬ ([0] : List ℕ).isEmpty = true)]
    rw [show ([0] : List ℕ).sum = 0 by decide, show ([0] : List ℕ).length = 1 by decide]
    simp only [pyTruthyOr]
    rw [if_pos (by norm_num : ((0:ℕ):ℚ) / ((1:ℕ):ℚ) / 3 = 0)]
    norm_num

/-- The dict returned by `_get_team_attacking_stats` (defaults applied inside
the stat read, which this model abstracts). -/
structure AttackStats where
  xg_per_game : ℚ
  goals_per_game : ℚ
  shots_per_game : ℚ
  top_striker_xg : ℚ
  playmaker_assists : ℚ
  formation_attack_score : ℚ
  pressing_intensity : ℚ
  possession_avg : ℚ
deriving DecidableEq

/-- The dict returned by `_get_team_defensive_stats`. -/
structure DefenseStats where
  xg_conceded_per_game : ℚ
  goals_conceded_per_game : ℚ
  defensive_rating : ℚ
  goalkeeper_save_pct : ℚ
  tackles_per_game : ℚ
  formation_defense_score : ℚ
deriving DecidableEq

/-- The dict returned by `_get_head_to_head_stats`. -/
structure H2HStats where
  goals_scored_avg : ℚ
  goals_conceded_avg : ℚ
  win_rate : ℚ
deriving DecidableEq

/-- The dict returned by `_get_team_form`. -/
structure FormStats where
  form_last_5 : ℚ
  form_last_10 : ℚ
  momentum : ℚ
deriving DecidableEq

/-- The external statistics source consumed by
`TeamAgnosticFeatureEngineer.extract_features_for_team` (the spec's
StatAggregator): one method per private `_get_*` / `_calculate_*` database
read, keyed by team external id(s) and the as-of date. -/
structure StatSource where
  quality : ℕ → ℕ → ℚ
  attackingStats : ℕ → ℕ → AttackStats
  defensiveStats : ℕ → ℕ → DefenseStats
  restDays : ℕ → ℕ → ℚ
  injuryImpact : ℕ → ℕ → ℚ
  h2hStats : ℕ → ℕ → ℕ → H2HStats
  teamForm : ℕ → ℕ → FormStats
  coachWinRate : ℕ → ℕ → ℚ

/-- `_estimate_travel_distance`: always returns the 200.0 placeholder. -/
def estimateTravelDistance (team_id opponent_id : ℕ) : ℚ := 200

/-- `_calculate_tactical_matchup`: always returns the neutral score 5.0. -/
def tacticalMatchup (team_id opponent_id : ℕ) (before_date : ℕ) : ℚ := 5

/-- The 31-field feature dict of `extract_features_for_team`, in source
order. -/
structure Features where
  team_quality_rating : ℚ
  opponent_quality_rating : ℚ
  team_xg_per_game : ℚ
  team_goals_per_game : ℚ
  team_shots_per_game : ℚ
  team_striker_xg : ℚ
  team_playmaker_assists : ℚ
  team_formation_attack : ℚ
  team_pressing_intensity : ℚ
  team_possession_avg : ℚ
  opponent_xg_conceded : ℚ
  opponent_goals_conceded : ℚ
  opponent_defensive_rating : ℚ
  opponent_goalkeeper_save_pct : ℚ
  opponent_tackles_per_game : ℚ
  opponent_formation_defense : ℚ
  venue_factor : ℚ
  rest_days : ℚ
  travel_distance : ℚ
  injury_impact : ℚ
  h2h_goals_scored_avg : ℚ
  h2h_goals_conceded_avg : ℚ
  h2h_win_rate : ℚ
  team_form_last_5 : ℚ
  team_form_last_10 : ℚ
  team_momentum : ℚ
  opponent_form_last_5 : ℚ
  coach_win_rate : ℚ
  tactical_matchup_score : ℚ
  quality_difference : ℚ
  attack_vs_defense : ℚ
deriving DecidableEq

/-- `TeamAgnosticFeatureEngineer.extract_features_for_team(team_id,
opponent_id, match_date, is_at_venue)`, field for field in source order:
team-keyed reads for the attacker, opponent-keyed reads for the defender,
`venue_factor = 1.0 if is_at_venue else 0.85`,
`travel_distance = 0 if is_at_venue else _estimate_travel_distance(...)`,
and the two derived differentials. -/
def extractFeaturesForTeam (src : StatSource) (team_id opponent_id : ℕ)
    (match_date : ℕ) (is_at_venue : Bool) : Features :=
  let team_quality := src.quality team_id match_date
  let opponent_quality := src.quality opponent_id match_date
  let team_attack := src.attackingStats team_id match_date
  let opponent_defense := src.defensiveStats opponent_id match_date
  let h2h := src.h2hStats team_id opponent_id match_date
  let form := src.teamForm team_id match_date
  let opponent_form := src.teamForm opponent_id match_date
  { team_quality_rating := team_quality
    opponent_quality_rating := opponent_quality
    team_xg_per_game := team_attack.xg_per_game
    team_goals_per_game := team_attack.goals_per_game
    team_shots_per_game := team_attack.shots_per_game
    team_striker_xg := team_attack.top_striker_xg
    team_playmaker_assists := team_attack.playmaker_assists
    team_formation_attack := team_attack.formation_attack_score
    team_pressing_intensity := team_attack.pressing_intensity
    team_possession_avg := team_attack.possession_avg
    opponent_xg_conceded := opponent_defense.xg_conceded_per_game
    opponent_goals_conceded := opponent_defense.goals_conceded_per_game
    opponent_defensive_rating := opponent_defense.defensive_rating
    opponent_goalkeeper_save_pct := opponent_defense.goalkeeper_save_pct
    opponent_tackles_per_game := opponent_defense.tackles_per_game
    opponent_formation_defense := opponent_defense.formation_defense_score
    venue_factor := if is_at_venue then 1 else 85/100
    rest_days := src.restDays team_id match_date
    travel_distance := if is_at_venue then 0 else estimateTravelDistance team_id opponent_id
    injury_impact := src.injuryImpact team_id match_date
    h2h_goals_scored_avg := h2h.goals_scored_avg
    h2h_goals_conceded_avg := h2h.goals_conceded_avg
    h2h_win_rate := h2h.win_rate
    team_form_last_5 := form.form_last_5
    team_form_last_10 := form.form_last_10
    team_momentum := form.momentum
    opponent_form_last_5 := opponent_form.form_last_5
    coach_win_rate := src.coachWinRate team_id match_date
    tactical_matchup_score := tacticalMatchup team_id opponent_id match_date
    quality_difference := team_quality - opponent_quality
    attack_vs_defense := team_attack.xg_per_game - opponent_defense.xg_conceded_per_game }

/-- Two competitors have identical underlying historical statistics as of a
date: every per-team read returns the same value for both, and the pairwise
reads are symmetric under swapping the two ids. -/
def identicalStats (src : StatSource) (a b d : ℕ) : Prop :=
  src.quality a d = src.quality b d ∧
  src.attackingStats a d = src.attackingStats b d ∧
  src.defensiveStats a d = src.defensiveStats b d ∧
  src.restDays a d = src.restDays b d ∧
  src.injuryImpact a d = src.injuryImpact b d ∧
  src.h2hStats a b d = src.h2hStats b a d ∧
  src.teamForm a d = src.teamForm b d ∧
  src.coachWinRate a d = src.coachWinRate b d

/-- Agreement on all 29 feature fields other than `venue_factor` and
`travel_distance`. -/
def agreeExceptVenueTravel (f g : Features) : Prop :=
  f.team_quality_rating = g.team_quality_rating ∧
  f.opponent_quality_rating = g.opponent_quality_rating ∧
  f.team_xg_per_game = g.team_xg_per_game ∧
  f.team_goals_per_game = g.team_goals_per_game ∧
  f.team_shots_per_game = g.team_shots_per_game ∧
  f.team_striker_xg = g.team_striker_xg ∧
  f.team_playmaker_assists = g.team_playmaker_assists ∧
  f.team_formation_attack = g.team_formation_attack ∧
  f.team_pressing_intensity = g.team_pressing_intensity ∧
  f.team_possession_avg = g.team_possession_avg ∧
  f.opponent_xg_conceded = g.opponent_xg_conceded ∧
  f.opponent_goals_conceded = g.opponent_goals_conceded ∧
  f.opponent_defensive_rating = g.opponent_defensive_rating ∧
  f.opponent_goalkeeper_save_pct = g.opponent_goalkeeper_save_pct ∧
  f.opponent_tackles_per_game = g.opponent_tackles_per_game ∧
  f.opponent_formation_defense = g.opponent_formation_defense ∧
  f.rest_days = g.rest_days ∧
  f.injury_impact = g.injury_impact ∧
  f.h2h_goals_scored_avg = g.h2h_goals_scored_avg ∧
  f.h2h_goals_conceded_avg = g.h2h_goals_conceded_avg ∧
  f.h2h_win_rate = g.h2h_win_rate ∧
  f.team_form_last_5 = g.team_form_last_5 ∧
  f.team_form_last_10 = g.team_form_last_10 ∧
  f.team_momentum = g.team_momentum ∧
  f.opponent_form_last_5 = g.opponent_form_last_5 ∧
  f.coach_win_rate = g.coach_win_rate ∧
  f.tactical_matchup_score = g.tactical_matchup_score ∧
  f.quality_difference = g.quality_difference ∧
  f.attack_vs_defense = g.attack_vs_defense

/-- C8: role symmetry of feature derivation.  With identical underlying
historical statistics for the two competitors, swapping the roles (and the
venue flag) changes only `venue_factor` and `travel_distance`: those two do
differ, and the other 29 fields agree. -/
theorem features_role_symmetric (src : StatSource) (a b d : ℕ)
    (h : identicalStats src a b d) :
    agreeExceptVenueTravel (extractFeaturesForTeam src a b d true)
        (extractFeaturesForTeam src b a d false) ∧
      (extractFeaturesForTeam src a b d true).venue_factor ≠
        (extractFeaturesForTeam src b a d false).venue_factor ∧
      (extractFeaturesForTeam src a b d true).travel_distance ≠
        (extractFeaturesForTeam src b a d false).travel_distance := by
  obtain ⟨h1, h2, h3, h4, h5, h6, h7, h8⟩ := h
  refine ⟨?_, ?_, ?_⟩
  · simp only [agreeExceptVenueTravel, extractFeaturesForTeam, tacticalMatchup,
      h1, h2, h3, h4, h5, h6, h7, h8]
    norm_num
  · simp only [extractFeaturesForTeam]
    norm_num
  · simp only [extractFeaturesForTeam, estimateTravelDistance]
    norm_num

/-- A concrete constant statistics source used to witness C8. -/
def constStatSource : StatSource where
  quality := fun _ _ => 60
  attackingStats := fun _ _ => ⟨2, 2, 10, 1, 3, 5, 5, 55⟩
  defensiveStats := fun _ _ => ⟨1, 1, 5, 7/10, 15, 5⟩
  restDays := fun _ _ => 7
  injuryImpact := fun _ _ => 0
  h2hStats := fun _ _ _ => ⟨3/2, 3/2, 1/2⟩
  teamForm := fun _ _ => ⟨1/2, 1/2, 0⟩
  coachWinRate := fun _ _ => 1/2

/-- Witness for C8: the symmetry theorem applied to the constant source with
two distinct team ids. -/
theorem features_role_symmetric_witness :
    identicalStats constStatSource 1 2 0 ∧
      agreeExceptVenueTravel (extractFeaturesForTeam constStatSource 1 2 0 true)
        (extractFeaturesForTeam constStatSource 2 1 0 false) :=
  ⟨⟨rfl, rfl, rfl, rfl, rfl, rfl, rfl, rfl⟩,
    (features_role_symmetric constStatSource 1 2 0
      ⟨rfl, rfl, rfl, rfl, rfl, rfl, rfl, rfl⟩).1⟩

/-- Tags for the insight messages of `TeamAgnosticPredictor._generate_insights`
(predictor_v2.py), one per `append` site; the message text also names the
stronger team, which the tag omits. -/
inductive InsightV2 where
  | qualityEdge
  | xgEdgeHome
  | xgEdgeAway
  | formEdgeHome
  | formEdgeAway
  | dominateHome
  | dominateAway
  | closeContest
  | highConfidence
  | uncertain
deriving DecidableEq

/-- `TeamAgnosticPredictor._generate_insights`: a fixed rule list over the
two feature dicts, the predicted goals and the confidence score, truncated
with `insights[:6]`.  There is NO padding to a minimum length. -/
def generateInsightsV2 (home_features away_features : Features)
    (home_goals away_goals confidence : ℚ) : List InsightV2 :=
  let insights : List InsightV2 := []
  let insights := insights ++
    (if |home_features.quality_difference| > 15 then [InsightV2.qualityEdge] else [])
  let insights := insights ++
    (if home_features.team_xg_per_game > away_features.team_xg_per_game + 1/2 then
      [InsightV2.xgEdgeHome]
    else if away_features.team_xg_per_game > home_features.team_xg_per_game + 1/2 then
      [InsightV2.xgEdgeAway]
    else [])
  let insights := insights ++
    (if home_features.team_form_last_5 > away_features.team_form_last_5 + 15/100 then
      [InsightV2.formEdgeHome]
    else if away_features.team_form_last_5 > home_features.team_form_last_5 + 15/100 then
      [InsightV2.formEdgeAway]
    else [])
  let insights := insights ++
    (if home_goals > away_goals + 3/2 then [InsightV2.dominateHome]
    else if away_goals > home_goals + 3/2 then [InsightV2.dominateAway]
    else if |home_goals - away_goals| < 1/2 then [InsightV2.closeContest]
    else [])
  let insights := insights ++
    (if confidence > 8/10 then [InsightV2.highConfidence]
    else if confidence < 6/10 then [InsightV2.uncertain]
    else [])
  insights.take 6

/-- The feature keys consumed by `EnhancedMatchPredictor._generate_insights`
via `features.get(key, 0)` (each read falls back to 0 when absent; the model
carries the resolved values). -/
structure EnhancedFeatures where
  form_difference : ℚ
  attack_strength_diff : ℚ
  defense_strength_diff : ℚ
  h2h_home_win_rate : ℚ
  h2h_away_win_rate : ℚ
  home_goals_per_game : ℚ
  away_goals_per_game : ℚ
deriving DecidableEq

/-- Tags for the insight messages of
`EnhancedMatchPredictor._generate_insights`, one per `append` site. -/
inductive InsightEnh where
  | formBetter
  | attackThreat
  | solidDefense
  | h2hAdvantage
  | heavilyFavored
  | slightEdge
  | evenlyMatched
  | drawProbNote
  | competitiveForm
  | closelyContested
  | tightGame
deriving DecidableEq

/-- `EnhancedMatchPredictor._generate_insights`: decide the predicted winner
from the three probabilities, fire the winner-supporting rules (or the three
fixed draw insights), then — under the comment "Ensure we always have at
least 3 insights" — append exactly TWO generic filler entries when fewer
than 3 rules fired, and truncate with `insights[:6]`. -/
def generateInsightsEnhanced (f : EnhancedFeatures)
    (home_win_prob draw_prob away_win_prob : ℚ) : List InsightEnh :=
  let base : List InsightEnh :=
    if home_win_prob > draw_prob ∧ home_win_prob > away_win_prob then
      let l : List InsightEnh := []
      let l := l ++ (if f.form_difference > 1/10 then [InsightEnh.formBetter] else [])
      let l := l ++
        (if f.attack_strength_diff > 2/10 then [InsightEnh.attackThreat] else [])
      let l := l ++
        (if f.defense_strength_diff > 2/10 then [InsightEnh.solidDefense] else [])
      let l := l ++
        (if f.h2h_home_win_rate > f.h2h_away_win_rate then [InsightEnh.h2hAdvantage] else [])
      let l := l ++
        (if home_win_prob > 7/10 then [InsightEnh.heavilyFavored]
        else if home_win_prob > 1/2 then [InsightEnh.slightEdge]
        else [])
      l
    else if away_win_prob > draw_prob ∧ away_win_prob > home_win_prob then
      let l : List InsightEnh := []
      let l := l ++ (if f.form_difference < -(1/10) then [InsightEnh.formBetter] else [])
      let l := l ++
        (if f.attack_strength_diff < -(2/10) then [InsightEnh.attackThreat] else [])
      let l := l ++
        (if f.defense_strength_diff < -(2/10) then [InsightEnh.solidDefense] else [])
      let l := l ++
        (if f.h2h_away_win_rate > f.h2h_home_win_rate then [InsightEnh.h2hAdvantage] else [])
      let l := l ++
        (if away_win_prob > 7/10 then [InsightEnh.heavilyFavored]
        else if away_win_prob > 1/2 then [InsightEnh.slightEdge]
        else [])
      l
    else
      [InsightEnh.evenlyMatched, InsightEnh.drawProbNote, InsightEnh.competitiveForm]
  let insights :=
    if base.length < 3 then base ++ [InsightEnh.closelyContested, InsightEnh.tightGame]
    else base
  insights.take 6

/-- The documented neutral feature vector (all per-field defaults). -/
def neutralFeatures : Features where
  team_quality_rating := 50
  opponent_quality_rating := 50
  team_xg_per_game := 3/2
  team_goals_per_game := 3/2
  team_shots_per_game := 12
  team_striker_xg := 1/2
  team_playmaker_assists := 3
  team_formation_attack := 5
  team_pressing_intensity := 5
  team_possession_avg := 50
  opponent_xg_conceded := 3/2
  opponent_goals_conceded := 3/2
  opponent_defensive_rating := 5
  opponent_goalkeeper_save_pct := 7/10
  opponent_tackles_per_game := 15
  opponent_formation_defense := 5
  venue_factor := 1
  rest_days := 7
  travel_distance := 0
  injury_impact := 0
  h2h_goals_scored_avg := 3/2
  h2h_goals_conceded_avg := 3/2
  h2h_win_rate := 1/2
  team_form_last_5 := 1/2
  team_form_last_10 := 1/2
  team_momentum := 0
  opponent_form_last_5 := 1/2
  coach_win_rate := 1/2
  tactical_matchup_score := 5
  quality_difference := 0
  attack_vs_defense := 0

/-- An all-zero enhanced feature dict (every `features.get(key, 0)` read
resolving to the default 0). -/
def zeroEnhFeatures : EnhancedFeatures :=
  ⟨0, 0, 0, 0, 0, 0, 0⟩

/-- C9 counterexample: the v2 insight generator returns ZERO insights for a
neutral feature pair with goals 2-1 and confidence 0.7 (no rule fires and no
padding exists), and the enhanced generator returns only TWO insights when
the home side is predicted to win with probability 0.4 and no rule fires
(the padding appends exactly two fillers) — both below the claimed minimum
of 3. -/
theorem insights_min_counterexample :
    (generateInsightsV2 neutralFeatures neutralFeatures 2 1 (7/10)).length = 0 ∧
      (generateInsightsEnhanced zeroEnhFeatures (4/10) (35/100) (25/100)).length = 2 ∧
      ¬ (3 ≤ 2) := by
  refine ⟨?_, ?_, by norm_num⟩
  · norm_num [generateInsightsV2, neutralFeatures]
  · norm_num [generateInsightsEnhanced, zeroEnhFeatures]

/-- Length bounds for the pad-then-truncate tail of the enhanced generator. -/
lemma padTake_bounds (base : List InsightEnh) :
    2 ≤ ((if base.length < 3 then
        base ++ [InsightEnh.closelyContested, InsightEnh.tightGame]
      else base).take 6).length ∧
      ((if base.length < 3 then
        base ++ [InsightEnh.closelyContested, InsightEnh.tightGame]
      else base).take 6).length ≤ 6 := by
  by_cases h : base.length < 3
  · rw [if_pos h, List.length_take, List.length_append]
    simp only [List.length_cons, List.length_nil]
    omega
  · rw [if_neg h, List.length_take]
    omega

/-- C9 amended: both insight generators cap their output at 6 entries; the
v2 generator does no padding at all (and can return an empty list), while
the enhanced generator appends exactly two filler entries when fewer than
three rules fired, so its output always has between 2 and 6 entries. -/
theorem insights_amended :
    (∀ hf af : Features, ∀ hg ag c : ℚ,
      (generateInsightsV2 hf af hg ag c).length ≤ 6) ∧
    (∀ f : EnhancedFeatures, ∀ hp dp ap : ℚ,
      2 ≤ (generateInsightsEnhanced f hp dp ap).length ∧
        (generateInsightsEnhanced f hp dp ap).length ≤ 6) := by
  constructor
  · intro hf af hg ag c
    simp only [generateInsightsV2]
    rw [List.length_take]
    exact min_le_left _ _
  · intro f hp dp ap
    simp only [generateInsightsEnhanced]
    exact padTake_bounds _
